import Mathlib

/-!
# Verification of the aisync-skill ingestion and redaction core

Shallow embedding of the repository's secret-redaction engine
(`skill/lib/redact.py`) and of the session parsers
(`skill/lib/parsers/{claude,cursor,windsurf,openrouter,base}.py`,
`skill/lib/models.py`), together with theorems settling the frozen claims
about them.

Conventions of the embedding:
* Python strings are `List Char` (redaction engine) or `String` (parsers);
  both are ASCII-faithful for every input the claims touch.
* Python regular expressions are translated, pattern by pattern, from the
  regex source strings in `SECRET_PATTERNS` into the `RE` syntax tree below;
  each translated pattern carries the original regex in its doc comment.
* The matcher `mtch` implements the backtracking priority order of CPython's
  `re` module (leftmost match; in an alternation the left branch first;
  greedy repetition consumes first, lazy repetition defers), with a fuel
  argument bounding recursion depth; the fuel supplied (`scanFuel`) is far
  above the depth any of the embedded patterns can need on its input.
* Fallible Python code is `Except PyErr`; an uncaught Python exception is
  `.error e`.
-/

/-- Python exception classes the embedded code can raise. -/
inductive PyErr where
  | attributeError
  | typeError
  | reError
deriving DecidableEq, Repr

/-! ## Character classes (ASCII model of the classes used by `SECRET_PATTERNS`) -/

def isAsciiDigitC (c : Char) : Bool := '0' ≤ c && c ≤ '9'

def isAsciiLowerC (c : Char) : Bool := 'a' ≤ c && c ≤ 'z'

def isAsciiUpperC (c : Char) : Bool := 'A' ≤ c && c ≤ 'Z'

/-- `[a-zA-Z0-9]` -/
def isAlnumC (c : Char) : Bool := isAsciiLowerC c || isAsciiUpperC c || isAsciiDigitC c

/-- Python `\s` (ASCII part): space, tab, newline, carriage return, vertical tab, form feed. -/
def isPySpace (c : Char) : Bool :=
  c == ' ' || c == '\t' || c == '\n' || c == '\r' || c == Char.ofNat 11 || c == Char.ofNat 12

/-- `[a-zA-Z0-9-]` -/
def alnumDash (c : Char) : Bool := isAlnumC c || c == '-'

/-- `[a-zA-Z0-9_]` -/
def alnumUnd (c : Char) : Bool := isAlnumC c || c == '_'

/-- `[a-zA-Z0-9_-]` -/
def alnumUndDash (c : Char) : Bool := isAlnumC c || c == '_' || c == '-'

/-- `[0-9A-Z]` -/
def digitUpper (c : Char) : Bool := isAsciiDigitC c || isAsciiUpperC c

/-- `[^\s]` -/
def nonSpace (c : Char) : Bool := !isPySpace c

/-- `[a-zA-Z0-9._-]` -/
def bearerChar (c : Char) : Bool := isAlnumC c || c == '.' || c == '_' || c == '-'

/-- `[baprs]` -/
def slackKind (c : Char) : Bool := c == 'b' || c == 'a' || c == 'p' || c == 'r' || c == 's'

/-- `[\s\S]` -/
def anyChar (_ : Char) : Bool := true

/-- `[^:]` -/
def notColon (c : Char) : Bool := !(c == ':')

/-- `[^@]` -/
def notAt (c : Char) : Bool := !(c == '@')

/-- The double-quote character. -/
def dquoteC : Char := Char.ofNat 34

/-- The single-quote character. -/
def squoteC : Char := Char.ofNat 39

/-- `["\']` -/
def quoteChar (c : Char) : Bool := c == dquoteC || c == squoteC

/-- `[^"\'\s]` -/
def credValChar (c : Char) : Bool := !(c == dquoteC || c == squoteC || isPySpace c)

/-- `[A-Za-z0-9+/]` -/
def b64Char (c : Char) : Bool := isAlnumC c || c == '+' || c == '/'

/-- `[_-]` -/
def undDash (c : Char) : Bool := c == '_' || c == '-'

/-- `[=:]` -/
def eqColon (c : Char) : Bool := c == '=' || c == ':'

/-- ASCII lowering of one character, model of the per-character action of
Python `str.lower` on ASCII text. -/
def lowerChar (c : Char) : Char :=
  if isAsciiUpperC c then Char.ofNat (c.toNat + 32) else c

/-- Model of Python `str.lower` for ASCII text. -/
def asciiLower (s : String) : String := String.mk (s.data.map lowerChar)

/-! ## Regular-expression syntax trees -/

/-- Abstract syntax of the regex fragment `SECRET_PATTERNS` uses: character
classes, concatenation, ordered alternation, and counted repetition
(`rep r lo hi greedy`; `hi = none` is unbounded). Capturing groups are
translated as plain subexpressions: no replacement string in the source uses
a backreference, and `findall` results are only ever counted. -/
inductive RE where
  | eps : RE
  | cls : (Char → Bool) → RE
  | seq : RE → RE → RE
  | alt : RE → RE → RE
  | rep : RE → Nat → Option Nat → Bool → RE

/-- Single literal character. -/
def chrR (c : Char) : RE := RE.cls fun d => d == c

/-- Single literal character, case-insensitive (`(?i)` scope). -/
def chrCI (c : Char) : RE := RE.cls fun d => lowerChar d == lowerChar c

/-- Literal string. -/
def litR (s : String) : RE := s.data.foldr (fun c r => RE.seq (chrR c) r) RE.eps

/-- Literal string under `(?i)`. -/
def litCI (s : String) : RE := s.data.foldr (fun c r => RE.seq (chrCI c) r) RE.eps

/-- `{lo,}` / `{lo,hi}` greedy repetition. -/
def repR (r : RE) (lo : Nat) (hi : Option Nat) : RE := RE.rep r lo hi true

/-- `+` -/
def plusR (r : RE) : RE := RE.rep r 1 none true

/-- `*` -/
def starR (r : RE) : RE := RE.rep r 0 none true

/-- `?` -/
def optR (r : RE) : RE := RE.rep r 0 (some 1) true

/-- `*?` (lazy star). -/
def lazyStarR (r : RE) : RE := RE.rep r 0 none false

/-- Ordered alternation `a|b|c|...` (left branch preferred, as in `re`). -/
def altsR : List RE → RE
  | [] => RE.eps
  | [r] => r
  | r :: rest => RE.alt r (altsR rest)

/-! ## The backtracking matcher -/

/-- Backtracking matcher in continuation-passing style, the model of CPython
`re` matching for the translated patterns. `mtch fuel r s k` tries to match
`r` against a prefix of `s` and calls `k` on the remainder, exploring
alternatives in `re`'s priority order; `none` means no alternative succeeds
(or fuel ran out; `scanFuel` below makes that unreachable for the embedded
patterns). -/
def mtch : Nat → RE → List Char → (List Char → Option (List Char)) → Option (List Char)
  | 0, _, _, _ => none
  | _ + 1, RE.eps, s, k => k s
  | _ + 1, RE.cls _, [], _ => none
  | _ + 1, RE.cls p, c :: rest, k => if p c then k rest else none
  | f + 1, RE.seq a b, s, k => mtch f a s fun s2 => mtch f b s2 k
  | f + 1, RE.alt a b, s, k =>
    match mtch f a s k with
    | some r => some r
    | none => mtch f b s k
  | f + 1, RE.rep r (lo + 1) hi g, s, k =>
    mtch f r s fun s2 => mtch f (RE.rep r lo (hi.map Nat.pred) g) s2 k
  | f + 1, RE.rep r 0 hi g, s, k =>
    match hi with
    | some 0 => k s
    | _ =>
      if g then
        match mtch f r s (fun s2 => mtch f (RE.rep r 0 (hi.map Nat.pred) g) s2 k) with
        | some res => some res
        | none => k s
      else
        match k s with
        | some res => some res
        | none => mtch f r s fun s2 => mtch f (RE.rep r 0 (hi.map Nat.pred) g) s2 k

/-- Fuel ample for matching any embedded pattern against `s` at one position:
the matcher loses at most a constant amount of depth per consumed character
plus the pattern's own size. -/
def scanFuel (s : List Char) : Nat := 8 * s.length + 800

/-- One position of the scan shared by `re.Pattern.findall` (match count)
and `re.Pattern.sub` (replacement). `m` is the attempt at the current
position: on a match emit `repl` and continue (via `recur`) after the match
(a replacement is never rescanned, as in `re.sub`) — an empty match
substitutes and advances one character; on no match emit the character and
move one right. First component: substituted text; second: match count. -/
def subStepF (repl : List Char) (recur : List Char → List Char × Nat) (s : List Char)
    (m : Option (List Char)) : List Char × Nat :=
  match m with
  | some rest =>
    if rest.length < s.length then
      match recur rest with
      | (t, n) => (repl ++ t, n + 1)
    else
      match s with
      | [] => (repl, 1)
      | c :: cs =>
        match recur cs with
        | (t, n) => (repl ++ c :: t, n + 1)
  | none =>
    match s with
    | [] => ([], 0)
    | c :: cs =>
      match recur cs with
      | (t, n) => (c :: t, n)

/-- The scan itself: `subStepF` at every position, left to right, with step
fuel that the callers set above the text length. -/
def subAux (mfuel : Nat) (re : RE) (repl : List Char) : Nat → List Char → List Char × Nat
  | 0, s => (s, 0)
  | f + 1, s => subStepF repl (subAux mfuel re repl f) s (mtch mfuel re s some)

/-- `pattern.sub(repl, s)`. -/
def pySub (re : RE) (repl : List Char) (s : List Char) : List Char :=
  (subAux (scanFuel s) re repl (s.length + 1) s).1

/-- `len(pattern.findall(s))`: the number of non-overlapping matches. -/
def pyCount (re : RE) (s : List Char) : Nat :=
  (subAux (scanFuel s) re [] (s.length + 1) s).2

/-! ## SECRET_PATTERNS (redact.py lines 21-87), pattern by pattern -/

/-- `sk-[a-zA-Z0-9]{20,}` -/
def patOpenAI : RE := RE.seq (litR "sk-") (repR (RE.cls isAlnumC) 20 none)

/-- `sk-proj-[a-zA-Z0-9-]{20,}` -/
def patOpenAIProj : RE := RE.seq (litR "sk-proj-") (repR (RE.cls alnumDash) 20 none)

/-- `sk-ant-[a-zA-Z0-9-]{20,}` -/
def patAnthropic : RE := RE.seq (litR "sk-ant-") (repR (RE.cls alnumDash) 20 none)

/-- `AIza[a-zA-Z0-9_-]{35}` -/
def patGoogle : RE := RE.seq (litR "AIza") (repR (RE.cls alnumUndDash) 35 (some 35))

/-- `ya29\.[a-zA-Z0-9_-]+` -/
def patGoogleOAuth : RE := RE.seq (litR "ya29.") (plusR (RE.cls alnumUndDash))

/-- `sgp_[a-zA-Z0-9_-]{40,}` -/
def patSourcegraph : RE := RE.seq (litR "sgp_") (repR (RE.cls alnumUndDash) 40 none)

/-- `ghp_[a-zA-Z0-9]{36,}` -/
def patGithubPat : RE := RE.seq (litR "ghp_") (repR (RE.cls isAlnumC) 36 none)

/-- `gho_[a-zA-Z0-9]{36,}` -/
def patGithubOAuth : RE := RE.seq (litR "gho_") (repR (RE.cls isAlnumC) 36 none)

/-- `ghs_[a-zA-Z0-9]{36,}` -/
def patGithubApp : RE := RE.seq (litR "ghs_") (repR (RE.cls isAlnumC) 36 none)

/-- `ghu_[a-zA-Z0-9]{36,}` -/
def patGithubUser : RE := RE.seq (litR "ghu_") (repR (RE.cls isAlnumC) 36 none)

/-- `github_pat_[a-zA-Z0-9_]{22,}` -/
def patGithubPat2 : RE := RE.seq (litR "github_pat_") (repR (RE.cls alnumUnd) 22 none)

/-- `AKIA[0-9A-Z]{16}` -/
def patAwsKey : RE := RE.seq (litR "AKIA") (repR (RE.cls digitUpper) 16 (some 16))

/-- `\s*[=:]\s*` -/
def eqColonGap : RE :=
  RE.seq (starR (RE.cls isPySpace)) (RE.seq (RE.cls eqColon) (starR (RE.cls isPySpace)))

/-- `(?i)aws_secret_access_key\s*[=:]\s*[^\s]+` -/
def patAwsSecret : RE :=
  RE.seq (litCI "aws_secret_access_key") (RE.seq eqColonGap (plusR (RE.cls nonSpace)))

/-- `(?i)aws_session_token\s*[=:]\s*[^\s]+` -/
def patAwsSession : RE :=
  RE.seq (litCI "aws_session_token") (RE.seq eqColonGap (plusR (RE.cls nonSpace)))

/-- `(?i)azure[_-]?(?:storage|api|key)[_-]?(?:key|secret)?\s*[=:]\s*[^\s]{20,}` -/
def patAzure : RE :=
  RE.seq (litCI "azure")
    (RE.seq (optR (RE.cls undDash))
      (RE.seq (altsR [litCI "storage", litCI "api", litCI "key"])
        (RE.seq (optR (RE.cls undDash))
          (RE.seq (optR (altsR [litCI "key", litCI "secret"]))
            (RE.seq eqColonGap (repR (RE.cls nonSpace) 20 none))))))

/-- `Bearer\s+[a-zA-Z0-9._-]{20,}` -/
def patBearer : RE :=
  RE.seq (litR "Bearer") (RE.seq (plusR (RE.cls isPySpace)) (repR (RE.cls bearerChar) 20 none))

/-- `eyJ[a-zA-Z0-9_-]*\.eyJ[a-zA-Z0-9_-]*\.[a-zA-Z0-9_-]*` -/
def patJwt : RE :=
  RE.seq (litR "eyJ")
    (RE.seq (starR (RE.cls alnumUndDash))
      (RE.seq (chrR '.')
        (RE.seq (litR "eyJ")
          (RE.seq (starR (RE.cls alnumUndDash))
            (RE.seq (chrR '.') (starR (RE.cls alnumUndDash)))))))

/-- `xox[baprs]-[a-zA-Z0-9-]+` -/
def patSlack : RE :=
  RE.seq (litR "xox") (RE.seq (RE.cls slackKind) (RE.seq (chrR '-') (plusR (RE.cls alnumDash))))

/-- `sk_live_[a-zA-Z0-9]{24,}` -/
def patStripeLive : RE := RE.seq (litR "sk_live_") (repR (RE.cls isAlnumC) 24 none)

/-- `sk_test_[a-zA-Z0-9]{24,}` -/
def patStripeTest : RE := RE.seq (litR "sk_test_") (repR (RE.cls isAlnumC) 24 none)

/-- `pk_live_[a-zA-Z0-9]{24,}` -/
def patStripePub : RE := RE.seq (litR "pk_live_") (repR (RE.cls isAlnumC) 24 none)

/-- `postgres(?:ql)?://[^\s]+` -/
def patPostgres : RE :=
  RE.seq (litR "postgres") (RE.seq (optR (litR "ql")) (RE.seq (litR "://") (plusR (RE.cls nonSpace))))

/-- `mysql://[^\s]+` -/
def patMysql : RE := RE.seq (litR "mysql://") (plusR (RE.cls nonSpace))

/-- `mongodb(?:\+srv)?://[^\s]+` -/
def patMongo : RE :=
  RE.seq (litR "mongodb") (RE.seq (optR (litR "+srv")) (RE.seq (litR "://") (plusR (RE.cls nonSpace))))

/-- `redis://[^\s]+` -/
def patRedis : RE := RE.seq (litR "redis://") (plusR (RE.cls nonSpace))

/-- `amqp://[^\s]+` -/
def patAmqp : RE := RE.seq (litR "amqp://") (plusR (RE.cls nonSpace))

/-- `(?:RSA |DSA |EC |OPENSSH )?` -/
def keyKindOpt : RE := optR (altsR [litR "RSA ", litR "DSA ", litR "EC ", litR "OPENSSH "])

/-- `-----BEGIN (?:RSA |DSA |EC |OPENSSH )?PRIVATE KEY-----[\s\S]*?-----END (?:RSA |DSA |EC |OPENSSH )?PRIVATE KEY-----` -/
def patPrivateKey : RE :=
  RE.seq (litR "-----BEGIN ")
    (RE.seq keyKindOpt
      (RE.seq (litR "PRIVATE KEY-----")
        (RE.seq (lazyStarR (RE.cls anyChar))
          (RE.seq (litR "-----END ") (RE.seq keyKindOpt (litR "PRIVATE KEY-----"))))))

/-- `://([^:]+):([^@]+)@` -/
def patPasswordUrl : RE :=
  RE.seq (litR "://")
    (RE.seq (plusR (RE.cls notColon)) (RE.seq (chrR ':') (RE.seq (plusR (RE.cls notAt)) (chrR '@'))))

/-- `(?i)(?:password|passwd|pwd|secret|token|api[_-]?key)\s*[=:]\s*["\']?([^"\'\s]{8,})["\']?` -/
def patCredential : RE :=
  RE.seq
    (altsR [litCI "password", litCI "passwd", litCI "pwd", litCI "secret", litCI "token",
            RE.seq (litCI "api") (RE.seq (optR (RE.cls undDash)) (litCI "key"))])
    (RE.seq eqColonGap
      (RE.seq (optR (RE.cls quoteChar))
        (RE.seq (repR (RE.cls credValChar) 8 none) (optR (RE.cls quoteChar)))))

/-- `ssh-(?:rsa|ed25519|ecdsa)\s+[A-Za-z0-9+/]+[=]{0,2}` -/
def patSsh : RE :=
  RE.seq (litR "ssh-")
    (RE.seq (altsR [litR "rsa", litR "ed25519", litR "ecdsa"])
      (RE.seq (plusR (RE.cls isPySpace))
        (RE.seq (plusR (RE.cls b64Char)) (repR (RE.cls fun c => c == '=') 0 (some 2)))))

/-- `https://hooks\.slack\.com/[^\s]+` -/
def patSlackHook : RE := RE.seq (litR "https://hooks.slack.com/") (plusR (RE.cls nonSpace))

/-- `https://discord\.com/api/webhooks/[^\s]+` -/
def patDiscordHook : RE := RE.seq (litR "https://discord.com/api/webhooks/") (plusR (RE.cls nonSpace))

/-- `SECRET_PATTERNS` (redact.py lines 21-87): the fixed ordered list of
(pattern, replacement, category) triples, with each pattern already in
translated (compiled) form. The order is exactly the source order. -/
def SECRET_PATTERNS : List (RE × String × String) := [
  (patOpenAI, "[REDACTED: OpenAI API Key]", "api_key"),
  (patOpenAIProj, "[REDACTED: OpenAI Project Key]", "api_key"),
  (patAnthropic, "[REDACTED: Anthropic API Key]", "api_key"),
  (patGoogle, "[REDACTED: Google API Key]", "api_key"),
  (patGoogleOAuth, "[REDACTED: Google OAuth Token]", "oauth"),
  (patSourcegraph, "[REDACTED: Sourcegraph Token]", "api_key"),
  (patGithubPat, "[REDACTED: GitHub PAT]", "github"),
  (patGithubOAuth, "[REDACTED: GitHub OAuth]", "github"),
  (patGithubApp, "[REDACTED: GitHub App Token]", "github"),
  (patGithubUser, "[REDACTED: GitHub User Token]", "github"),
  (patGithubPat2, "[REDACTED: GitHub PAT v2]", "github"),
  (patAwsKey, "[REDACTED: AWS Access Key]", "aws"),
  (patAwsSecret, "[REDACTED: AWS Secret]", "aws"),
  (patAwsSession, "[REDACTED: AWS Session Token]", "aws"),
  (patAzure, "[REDACTED: Azure Key]", "azure"),
  (patBearer, "[REDACTED: Bearer Token]", "bearer"),
  (patJwt, "[REDACTED: JWT Token]", "jwt"),
  (patSlack, "[REDACTED: Slack Token]", "slack"),
  (patStripeLive, "[REDACTED: Stripe Live Key]", "stripe"),
  (patStripeTest, "[REDACTED: Stripe Test Key]", "stripe"),
  (patStripePub, "[REDACTED: Stripe Pub Key]", "stripe"),
  (patPostgres, "[REDACTED: PostgreSQL URL]", "database"),
  (patMysql, "[REDACTED: MySQL URL]", "database"),
  (patMongo, "[REDACTED: MongoDB URL]", "database"),
  (patRedis, "[REDACTED: Redis URL]", "database"),
  (patAmqp, "[REDACTED: AMQP URL]", "database"),
  (patPrivateKey, "[REDACTED: Private Key Block]", "private_key"),
  (patPasswordUrl, "://[USER]:[REDACTED]@", "password_url"),
  (patCredential, "[REDACTED: Credential]", "credential"),
  (patSsh, "[REDACTED: SSH Public Key]", "ssh"),
  (patSlackHook, "[REDACTED: Slack Webhook]", "webhook"),
  (patDiscordHook, "[REDACTED: Discord Webhook]", "webhook")]

/-- The ordered category list of `SECRET_PATTERNS`. -/
def secretCategories : List String := SECRET_PATTERNS.map fun t => t.2.2

/-! ## SecretRedactor -/

/-- `RedactionResult` (redact.py lines 11-17). -/
structure RedactionResult where
  original_length : Nat
  redacted_length : Nat
  redactions_count : Nat
  redaction_types : List (String × Nat)
deriving DecidableEq, Repr

/-- Python `dict.get(k, 0)` on the counts dictionary. -/
def dictGetNat (m : List (String × Nat)) (k : String) : Nat :=
  match m.find? fun kv => kv.1 == k with
  | some kv => kv.2
  | none => 0

/-- Python `m[k] = v` on the counts dictionary: update in place if the key
exists, else append (insertion order preserved, as for a Python dict). -/
def dictSetNat : List (String × Nat) → String → Nat → List (String × Nat)
  | [], k, v => [(k, v)]
  | (k2, v2) :: t, k, v => if k2 == k then (k, v) :: t else (k2, v2) :: dictSetNat t k v

/-- One iteration of the loop in `SecretRedactor.redact` (redact.py lines
124-130): `matches = pattern.findall(text); if matches: count = len(matches);
counts[category] = counts.get(category, 0) + count; total += count;
text = pattern.sub(replacement, text)`. -/
def redactStep (acc : List Char × List (String × Nat) × Nat) (p : RE × String × String) :
    List Char × List (String × Nat) × Nat :=
  match acc with
  | (text, counts, total) =>
    let n := pyCount p.1 text
    if n == 0 then (text, counts, total)
    else
      (pySub p.1 p.2.1.data text,
       dictSetNat counts p.2.2 (dictGetNat counts p.2.2 + n),
       total + n)

/-- `SecretRedactor.redact` (redact.py lines 107-139), over an already
compiled pattern list (the default instance uses `SECRET_PATTERNS`). -/
def SecretRedactor.redact (compiled : List (RE × String × String)) (text : List Char) :
    List Char × RedactionResult :=
  if text.isEmpty then (text, ⟨0, 0, 0, []⟩)
  else
    match compiled.foldl redactStep (text, [], 0) with
    | (t, counts, total) => (t, ⟨text.length, t.length, total, counts⟩)

/-- `SecretRedactor.redact_simple` (redact.py lines 141-149). -/
def SecretRedactor.redact_simple (compiled : List (RE × String × String)) (text : List Char) :
    List Char :=
  if text.isEmpty then text
  else compiled.foldl (fun t p => pySub p.1 p.2.1.data t) text

/-- A regex source string as `SecretRedactor.__init__` receives it: either it
compiles (to its translated syntax tree) or `re.compile` raises on it.
Whether a given source string compiles is standard-library behaviour, so it
is carried as data here; the repository's own `SECRET_PATTERNS` sources all
compile. -/
def reCompileModel : Option RE → Except PyErr RE
  | some r => Except.ok r
  | none => Except.error PyErr.reError

/-- The default patterns as source triples (all of them compile). -/
def secretPatternsSrc : List (Option RE × String × String) :=
  SECRET_PATTERNS.map fun t => (some t.1, t.2.1, t.2.2)

/-- `SecretRedactor.__init__` (redact.py lines 93-105): `self.patterns =
SECRET_PATTERNS.copy()`, extended with `custom_patterns`, then
`self._compiled = [(re.compile(p), r, c) for p, r, c in self.patterns]`.
The comprehension has no exception handling, so the first failing
`re.compile` raises out of the constructor. -/
def SecretRedactor.init (custom : List (Option RE × String × String)) :
    Except PyErr (List (RE × String × String)) :=
  (secretPatternsSrc ++ custom).mapM fun t =>
    (reCompileModel t.1).map fun r => (r, t.2.1, t.2.2)

/-- Wrapper over `String` for the default redactor instance
(`default_redactor = SecretRedactor()`, whose compiled list is
`SECRET_PATTERNS`). -/
def redactStr (s : String) : String × RedactionResult :=
  match SecretRedactor.redact SECRET_PATTERNS s.data with
  | (t, r) => (String.mk t, r)

/-! ## The canonical model (models.py) -/

/-- `Provider` (models.py lines 13-28). -/
inductive Provider where
  | claude_code | codex | cursor | aider | cline | gemini_cli | continue_dev
  | copilot | roo_code | windsurf | zed_ai | amp | opencode | openrouter
deriving DecidableEq, Repr

/-- `MessageRole` (models.py lines 31-36). -/
inductive MessageRole where
  | user | assistant | system | tool
deriving DecidableEq, Repr

/-! ## Python value model for decoded JSON -/

/-- A decoded Python value as `json.loads` produces it (floats are not
modelled: no embedded claim exercises one). -/
inductive PyVal where
  | none : PyVal
  | bool : Bool → PyVal
  | int : Int → PyVal
  | str : String → PyVal
  | list : List PyVal → PyVal
  | dict : List (String × PyVal) → PyVal
deriving Repr

/-- Python truthiness. -/
def PyVal.truthy : PyVal → Bool
  | .none => false
  | .bool b => b
  | .int n => !(n == 0)
  | .str s => !(s == "")
  | .list xs => !xs.isEmpty
  | .dict kvs => !kvs.isEmpty

/-- `d.get(k, dflt)` on a decoded dict. -/
def pyGet (d : List (String × PyVal)) (k : String) (dflt : PyVal) : PyVal :=
  match d.find? fun kv => kv.1 == k with
  | some kv => kv.2
  | none => dflt

/-- Python `v == lit` for a `str` literal `lit`: equality between a non-str
value and a str is `False`, never an error. -/
def pyEqStr (v : PyVal) (s : String) : Bool :=
  match v with
  | .str t => t == s
  | _ => false

mutual
/-- Model of Python `str(v)` / `json.dumps(v)` rendering for values: scalars
render exactly; containers render JSON-style (Python's own container `repr`
differs in quoting details, and no theorem below depends on a container
rendering). -/
def pyStrOf : PyVal → String
  | PyVal.str s => s
  | PyVal.int n => toString n
  | PyVal.bool true => "True"
  | PyVal.bool false => "False"
  | PyVal.none => "None"
  | PyVal.list xs => "[" ++ String.intercalate ", " (pyStrOfList xs) ++ "]"
  | PyVal.dict kvs => "\x7b" ++ String.intercalate ", " (pyStrOfKvs kvs) ++ "\x7d"

def pyStrOfList : List PyVal → List String
  | [] => []
  | v :: vs => pyStrOf v :: pyStrOfList vs

def pyStrOfKvs : List (String × PyVal) → List String
  | [] => []
  | kv :: kvs => (kv.1 ++ ": " ++ pyStrOf kv.2) :: pyStrOfKvs kvs
end

/-- `v.lower()`: only a `str` has the method; any other value raises
`AttributeError`. -/
def pyLower : PyVal → Except PyErr String
  | .str s => Except.ok (asciiLower s)
  | _ => Except.error PyErr.attributeError

/-- Model of Python `for x in v`: lists yield their elements, strings their
characters, dicts their keys; every other value raises `TypeError`. -/
def pyIterate : PyVal → Except PyErr (List PyVal)
  | .list xs => Except.ok xs
  | .str s => Except.ok (s.data.map fun c => PyVal.str (String.mk [c]))
  | .dict kvs => Except.ok (kvs.map fun kv => PyVal.str kv.1)
  | _ => Except.error PyErr.typeError

/-- Whether a value is a `str`. -/
def isStrVal : PyVal → Bool
  | .str _ => true
  | _ => false

/-- `sep.join(parts)`: raises `TypeError` when any element is not a `str`. -/
def pyJoin (sep : String) (parts : List PyVal) : Except PyErr String :=
  if parts.all isStrVal then Except.ok (String.intercalate sep (parts.map pyStrOf))
  else Except.error PyErr.typeError

/-- Opaque-value model of `datetime.datetime`, tagged by how it was built. -/
inductive PyDateTime where
  | fromIso : String → PyDateTime
  | fromTimestamp : Int → PyDateTime
deriving DecidableEq, Repr

/-- Model of `datetime.fromisoformat` (standard library): accepts a string
with a `YYYY-MM-DD` shaped prefix (digits and dashes in the right
positions). This is the slice of the stdlib grammar the embedded inputs
exercise. -/
def isoOk (s : String) : Bool :=
  let cs := s.data
  decide (cs.length ≥ 10) &&
  (cs.take 4).all isAsciiDigitC &&
  cs.getD 4 ' ' == '-' &&
  ((cs.drop 5).take 2).all isAsciiDigitC &&
  cs.getD 7 ' ' == '-' &&
  ((cs.drop 8).take 2).all isAsciiDigitC

/-- `datetime.fromisoformat(s)` as `Option` (the callers swallow its
exception). -/
def fromIsoModel (s : String) : Option PyDateTime :=
  if isoOk s then some (PyDateTime.fromIso s) else none

/-- `s.replace('Z', '+00:00')`. -/
def zReplace (s : String) : String :=
  String.mk (s.data.foldr
    (fun c acc => if c == 'Z' then '+' :: '0' :: '0' :: ':' :: '0' :: '0' :: acc else c :: acc) [])

/-- `datetime.fromisoformat(str(v).replace('Z', '+00:00'))` with every
exception swallowed by the caller's `except: pass`: yields a datetime only
for an ISO-shaped rendering. A non-str `v` never parses (its rendering is
not ISO-shaped), matching both the cursor form (`str(v)` first) and the
claude form (`.replace` on a non-str raises, caught by the bare except). -/
def pyFromIsoOfVal (v : PyVal) : Option PyDateTime :=
  fromIsoModel (zReplace (pyStrOf v))

/-- `Message` (models.py lines 39-52): the fields the embedded parsers set;
the analytics fields keep their defaults and are omitted. `content` stays a
`PyVal`: the dataclass performs no validation, so non-str content (as the
cursor/windsurf adapters can produce) flows through unchanged. -/
structure Message where
  role : MessageRole
  content : PyVal
  timestamp : Option PyDateTime := Option.none
  tool_name : Option PyVal := Option.none
deriving Repr

/-- `Session` (models.py lines 77-105): the fields the embedded parsers set;
analytics fields keep their defaults and are omitted. `working_dir` and
`model` default to Python `None`. `source_mtime` is an integer stand-in for
the float `st_mtime`. -/
structure Session where
  id : String
  provider : Provider
  messages : List Message
  created_at : PyDateTime
  working_dir : PyVal := PyVal.none
  model : PyVal := PyVal.none
  source_file : String := ""
  source_mtime : Int := 0
  tags : List String := []
deriving Repr

/-- The slice of `pathlib.Path` the parsers touch: `str(path)`, `path.stem`,
`path.name`, `path.suffix`, and `path.stat().st_mtime` (modelled as
succeeding — the file was readable moments before). -/
structure PyPath where
  full : String
  stem : String
  name : String
  suffix : String
  mtime : Int
deriving DecidableEq, Repr

/-! ## CursorParser (cursor.py) -/

/-- One `msg` iteration of the message loop in `CursorParser.parse_session`
(cursor.py lines 55-69): `role = msg.get('role', '').lower()` (raises
`AttributeError` on a non-str role), `content = msg.get('content',
msg.get('text', ''))`; `user` and truthy content appends a USER message,
`assistant`/`ai` an ASSISTANT message; anything else is skipped. -/
def cursorMsgStep (acc : List Message) (msg : PyVal) : Except PyErr (List Message) :=
  match msg with
  | PyVal.dict m =>
    match pyLower (pyGet m "role" (PyVal.str "")) with
    | Except.error e => Except.error e
    | Except.ok role =>
      let content := pyGet m "content" (pyGet m "text" (PyVal.str ""))
      if role == "user" && content.truthy then
        Except.ok (acc ++ [{ role := MessageRole.user, content := content }])
      else if (role == "assistant" || role == "ai") && content.truthy then
        Except.ok (acc ++ [{ role := MessageRole.assistant, content := content }])
      else
        Except.ok acc
  | _ => Except.ok acc

/-- The message loop of `CursorParser.parse_session`. -/
def cursorMessages (items : List PyVal) : Except PyErr (List Message) :=
  items.foldlM cursorMsgStep []

/-- The `createdAt` handling of `CursorParser.parse_session` (cursor.py
lines 76-86): a truthy `createdAt` is parsed with `datetime.fromisoformat`
(failure swallowed by the bare `except`); when no datetime results, the code
calls `self.get_file_created_at(path)` — a method defined on no parser class
(it exists only as a module-level helper of
scripts/sync_cursor_to_obsidian.py) — so Python raises `AttributeError`. -/
def cursorCreatedAt (d : List (String × PyVal)) : Except PyErr PyDateTime :=
  let ca := pyGet d "createdAt" PyVal.none
  match (if ca.truthy then pyFromIsoOfVal ca else Option.none) with
  | some dt => Except.ok dt
  | Option.none => Except.error PyErr.attributeError

/-- `CursorParser.parse_session` (cursor.py lines 37-97). `input` is the
joint outcome of `path.read_text` + `json.loads` (lines 39-43): `.error ()`
when either raised (the `except Exception: return None` branch), otherwise
the decoded document. -/
def CursorParser.parse_session (path : PyPath) (input : Except Unit PyVal) :
    Except PyErr (Option Session) :=
  match input with
  | Except.error _ => Except.ok Option.none
  | Except.ok data =>
    match data with
    | PyVal.dict d =>
      let raw := pyGet d "messages" (pyGet d "conversation" (PyVal.list []))
      if !raw.truthy then Except.ok Option.none
      else
        match pyIterate raw with
        | Except.error e => Except.error e
        | Except.ok items =>
          match cursorMessages items with
          | Except.error e => Except.error e
          | Except.ok messages =>
            if messages.isEmpty then Except.ok Option.none
            else
              match cursorCreatedAt d with
              | Except.error e => Except.error e
              | Except.ok created =>
                Except.ok (some {
                  id := (pyStrOf (pyGet d "id" (PyVal.str (path.stem.take 8)))).take 8
                  provider := Provider.cursor
                  messages := messages
                  created_at := created
                  model := pyGet d "model" (PyVal.str "")
                  source_file := path.full
                  source_mtime := path.mtime
                  tags := ["cursor", "ai-session", "coding"] })
    | _ => Except.ok Option.none

/-! ## WindsurfParser (windsurf.py) -/

/-- The candidate-key scan of `WindsurfParser._extract_messages`
(windsurf.py lines 87-90): the first truthy of
`messages`/`conversation`/`history`/`turns`; when none is truthy the
variable keeps the last lookup, `data.get('turns', [])`. -/
def windsurfKeyScan (d : List (String × PyVal)) : PyVal :=
  let m := pyGet d "messages" (PyVal.list [])
  if m.truthy then m
  else
    let c := pyGet d "conversation" (PyVal.list [])
    if c.truthy then c
    else
      let h := pyGet d "history" (PyVal.list [])
      if h.truthy then h
      else pyGet d "turns" (PyVal.list [])

/-- The structured-content flattening of `_extract_messages` (windsurf.py
lines 98-103): dict items contribute `item.get('text', str(item))`, others
`str(item)`; `'\n\n'.join` raises `TypeError` when a contributed `text`
value is not a str. -/
def windsurfFlatten (items : List PyVal) : Except PyErr String :=
  pyJoin "\n\n" (items.map fun item =>
    match item with
    | PyVal.dict im => pyGet im "text" (PyVal.str (pyStrOf item))
    | _ => PyVal.str (pyStrOf item))

/-- One `msg` iteration of `_extract_messages` (windsurf.py lines 92-114):
role from `role`/`type` lowered (non-str raises), content from
`content`/`text`/`message`, list content flattened; `user`/`human` appends
USER, `assistant`/`ai`/`model` appends ASSISTANT, all else skipped. -/
def windsurfMsgStep (acc : List Message) (msg : PyVal) : Except PyErr (List Message) :=
  match msg with
  | PyVal.dict m =>
    match pyLower (pyGet m "role" (pyGet m "type" (PyVal.str ""))) with
    | Except.error e => Except.error e
    | Except.ok role =>
      match (match pyGet m "content" (pyGet m "text" (pyGet m "message" (PyVal.str ""))) with
             | PyVal.list items => (windsurfFlatten items).map PyVal.str
             | v => Except.ok v) with
      | Except.error e => Except.error e
      | Except.ok content =>
        if (role == "user" || role == "human") && content.truthy then
          Except.ok (acc ++ [{ role := MessageRole.user, content := content }])
        else if (role == "assistant" || role == "ai" || role == "model") && content.truthy then
          Except.ok (acc ++ [{ role := MessageRole.assistant, content := content }])
        else
          Except.ok acc
  | _ => Except.ok acc

/-- `WindsurfParser._extract_messages` (windsurf.py lines 84-114), returning
the messages it appends. -/
def windsurfExtractMessages (d : List (String × PyVal)) : Except PyErr (List Message) :=
  match pyIterate (windsurfKeyScan d) with
  | Except.error e => Except.error e
  | Except.ok items => items.foldlM windsurfMsgStep []

/-- The toplevel message gathering of `WindsurfParser.parse_session`
(windsurf.py lines 59-66): a list document feeds each dict element to
`_extract_messages`, a dict document is fed directly, anything else yields
no messages. -/
def windsurfGather (data : PyVal) : Except PyErr (List Message) :=
  match data with
  | PyVal.list items =>
    items.foldlM (fun acc item =>
      match item with
      | PyVal.dict d => (windsurfExtractMessages d).map fun ms => acc ++ ms
      | _ => Except.ok acc) []
  | PyVal.dict d => windsurfExtractMessages d
  | _ => Except.ok []

/-- `WindsurfParser.parse_session` (windsurf.py lines 51-82). When messages
were extracted, the `Session(...)` call evaluates
`created_at=self.get_file_created_at(path)` (line 77); no parser class
defines that method, so the call raises `AttributeError` before any Session
is returned. -/
def WindsurfParser.parse_session (path : PyPath) (input : Except Unit PyVal) :
    Except PyErr (Option Session) :=
  match input with
  | Except.error _ => Except.ok Option.none
  | Except.ok data =>
    match windsurfGather data with
    | Except.error e => Except.error e
    | Except.ok messages =>
      if messages.isEmpty then Except.ok Option.none
      else Except.error PyErr.attributeError

/-! ## ClaudeCodeParser (claude.py) -/

/-- The loop state of `ClaudeCodeParser.parse_session` (claude.py lines
37-41). -/
structure ClaudeState where
  session_id : String
  created_at : Option PyDateTime
  working_dir : PyVal
  model : PyVal
  messages : List Message
deriving Repr

/-- The parts one content-array item contributes in
`ClaudeCodeParser._extract_text` (claude.py lines 109-126). Parts stay
`PyVal`s because a truthy non-str `item['text']` is appended as-is and later
makes `'\n\n'.join` raise `TypeError`. -/
def claudeTextPart (item : PyVal) : List PyVal :=
  match item with
  | PyVal.str s => [PyVal.str s]
  | PyVal.dict im =>
    if pyEqStr (pyGet im "type" PyVal.none) "text" && (pyGet im "text" PyVal.none).truthy then
      [pyGet im "text" PyVal.none]
    else if pyEqStr (pyGet im "type" PyVal.none) "tool_use" then
      let tool_name := pyGet im "name" (PyVal.str "tool")
      let header := PyVal.str ("**🔧 Tool: " ++ pyStrOf tool_name ++ "**")
      if (pyGet im "input" PyVal.none).truthy then
        let inputVal := pyGet im "input" PyVal.none
        let input_str :=
          match inputVal with
          | PyVal.dict _ => (pyStrOf inputVal).take 500
          | v => (pyStrOf v).take 500
        [header, PyVal.str ("```\n" ++ input_str ++ "\n```")]
      else [header]
    else if pyEqStr (pyGet im "type" PyVal.none) "tool_result" &&
        (pyGet im "content" PyVal.none).truthy then
      [PyVal.str ("**📤 Result:**\n```\n" ++ (pyStrOf (pyGet im "content" PyVal.none)).take 1000
        ++ "\n```")]
    else []
  | _ => []

/-- `ClaudeCodeParser._extract_text` (claude.py lines 104-128): a str passes
through, a list is flattened part by part and joined with blank lines,
anything else becomes `''`. -/
def claudeExtractText (content : PyVal) : Except PyErr String :=
  match content with
  | PyVal.str s => Except.ok s
  | PyVal.list items => pyJoin "\n\n" (items.foldr (fun i acc => claudeTextPart i ++ acc) [])
  | _ => Except.ok ""

/-- Lines 49-50 of claude.py: `sessionId`, only while `created_at` is unset. -/
def claudeMetaSession (st : ClaudeState) (e : List (String × PyVal)) : ClaudeState :=
  if (pyGet e "sessionId" PyVal.none).truthy && st.created_at.isNone then
    { st with session_id := (pyStrOf (pyGet e "sessionId" PyVal.none)).take 8 }
  else st

/-- Lines 52-56 of claude.py: `timestamp`, only while `created_at` is unset;
the inner `try` has a bare `except`, so a parse failure is swallowed. -/
def claudeMetaTimestamp (st : ClaudeState) (e : List (String × PyVal)) : ClaudeState :=
  if (pyGet e "timestamp" PyVal.none).truthy && st.created_at.isNone then
    match pyFromIsoOfVal (pyGet e "timestamp" PyVal.none) with
    | some dt => { st with created_at := some dt }
    | Option.none => st
  else st

/-- Lines 58-59 of claude.py: `cwd` whenever truthy. -/
def claudeMetaCwd (st : ClaudeState) (e : List (String × PyVal)) : ClaudeState :=
  if (pyGet e "cwd" PyVal.none).truthy then { st with working_dir := pyGet e "cwd" PyVal.none }
  else st

/-- Lines 61-62 of claude.py: `model` whenever truthy. -/
def claudeMetaModel (st : ClaudeState) (e : List (String × PyVal)) : ClaudeState :=
  if (pyGet e "model" PyVal.none).truthy then { st with model := pyGet e "model" PyVal.none }
  else st

/-- The metadata updates of one decoded line (claude.py lines 48-62), in
source order. The `messages` field is untouched. -/
def claudeMetaUpdate (st : ClaudeState) (e : List (String × PyVal)) : ClaudeState :=
  claudeMetaModel (claudeMetaCwd (claudeMetaTimestamp (claudeMetaSession st e) e) e) e

/-- One decoded line of `ClaudeCodeParser.parse_session` (claude.py lines
43-84): the metadata updates followed by the message extraction. The
per-line `try` catches only `json.JSONDecodeError` (line 83), so every other
exception propagates: `.get` on a non-dict decoded line and `.get('content')`
on a non-dict `message` value raise `AttributeError`. -/
def claudeLineStep (st : ClaudeState) (entry : PyVal) : Except PyErr ClaudeState :=
  match entry with
  | PyVal.dict e =>
    let st4 := claudeMetaUpdate st e
    match pyGet e "message" (PyVal.dict []) with
    | PyVal.dict m =>
      let msg_content := pyGet m "content" PyVal.none
      let entry_type := pyGet e "type" (PyVal.str "")
      if pyEqStr entry_type "user" && msg_content.truthy then
        match claudeExtractText msg_content with
        | Except.error err => Except.error err
        | Except.ok text =>
          if !(text == "") && !(String.isPrefixOf "<environment_context" text) then
            Except.ok { st4 with messages :=
              st4.messages ++ [{ role := MessageRole.user, content := PyVal.str text }] }
          else Except.ok st4
      else if pyEqStr entry_type "assistant" && msg_content.truthy then
        match claudeExtractText msg_content with
        | Except.error err => Except.error err
        | Except.ok text =>
          if !(text == "") then
            Except.ok { st4 with messages :=
              st4.messages ++ [{ role := MessageRole.assistant, content := PyVal.str text }] }
          else Except.ok st4
      else Except.ok st4
    | _ => Except.error PyErr.attributeError
  | _ => Except.error PyErr.attributeError

/-- The initial loop state (claude.py lines 37-41). -/
def claudeInitState (path : PyPath) : ClaudeState :=
  { session_id := path.stem.take 8, created_at := Option.none,
    working_dir := PyVal.str "", model := PyVal.str "", messages := [] }

/-- The whole line loop of `ClaudeCodeParser.parse_session`: a line whose
`json.loads` raised `JSONDecodeError` (`none`) is skipped by `continue`. -/
def claudeFold (path : PyPath) (lines : List (Option PyVal)) : Except PyErr ClaudeState :=
  lines.foldlM (fun st line =>
    match line with
    | some entry => claudeLineStep st entry
    | Option.none => Except.ok st) (claudeInitState path)

/-- `ClaudeCodeParser.parse_session` (claude.py lines 25-102). `input` is
the outcome of `path.read_text` (`.error ()` = the `except: return None` at
lines 29-30); when reading succeeded, the list holds the per-line
`json.loads` outcome of each non-blank line (`none` = `JSONDecodeError`). -/
def ClaudeCodeParser.parse_session (path : PyPath) (input : Except Unit (List (Option PyVal))) :
    Except PyErr (Option Session) :=
  match input with
  | Except.error _ => Except.ok Option.none
  | Except.ok lines =>
    if lines.isEmpty then Except.ok Option.none
    else
      match claudeFold path lines with
      | Except.error e => Except.error e
      | Except.ok st =>
        if st.messages.isEmpty then Except.ok Option.none
        else
          Except.ok (some {
            id := st.session_id
            provider := Provider.claude_code
            messages := st.messages
            created_at :=
              match st.created_at with
              | some dt => dt
              | Option.none => PyDateTime.fromTimestamp path.mtime
            working_dir := st.working_dir
            model := st.model
            source_file := path.full
            source_mtime := path.mtime
            tags := ["claude-code", "ai-session", "coding"] })

/-! ## OpenRouterParser (openrouter.py) -/

/-- `OpenRouterParser._parse_timestamp` (openrouter.py lines 224-241):
falsy values yield `None`; numbers above 1e12 are divided down from
milliseconds (integer division stands in for the float division;
`datetime.fromtimestamp` of a number is modelled as succeeding); strings go
through `fromisoformat` with `Z` replaced; everything else yields `None`.
`True` passes `isinstance(ts, (int, float))` as `1`. -/
def orParseTimestamp (ts : PyVal) : Option PyDateTime :=
  if !ts.truthy then Option.none
  else
    match ts with
    | PyVal.int n => some (PyDateTime.fromTimestamp (if n > 1000000000000 then n / 1000 else n))
    | PyVal.bool _ => some (PyDateTime.fromTimestamp 1)
    | PyVal.str s => fromIsoModel (zReplace s)
    | _ => Option.none

/-- The content-list flattening of `OpenRouterParser._extract_message`
(openrouter.py lines 176-186): str items pass, `text`-typed dict items with
truthy text contribute that value (possibly non-str), `image_url` items
contribute `"[Image]"`, others are skipped. -/
def orFlatten (items : List PyVal) : List PyVal :=
  items.foldr (fun item acc =>
    match item with
    | PyVal.str s => PyVal.str s :: acc
    | PyVal.dict im =>
      if pyEqStr (pyGet im "type" PyVal.none) "text" && (pyGet im "text" PyVal.none).truthy then
        pyGet im "text" PyVal.none :: acc
      else if pyEqStr (pyGet im "type" PyVal.none) "image_url" then
        PyVal.str "[Image]" :: acc
      else acc
    | _ => acc) []

/-- The per-message timestamp scan (openrouter.py lines 191-196): keys
`timestamp`, `created_at`, `createdAt` in order; a truthy key whose parse
fails leaves the scan to continue. -/
def orMsgTimestamp (m : List (String × PyVal)) : Option PyDateTime :=
  match (if (pyGet m "timestamp" PyVal.none).truthy
         then orParseTimestamp (pyGet m "timestamp" PyVal.none) else Option.none) with
  | some dt => some dt
  | Option.none =>
    match (if (pyGet m "created_at" PyVal.none).truthy
           then orParseTimestamp (pyGet m "created_at" PyVal.none) else Option.none) with
    | some dt => some dt
    | Option.none =>
      if (pyGet m "createdAt" PyVal.none).truthy
      then orParseTimestamp (pyGet m "createdAt" PyVal.none) else Option.none

/-- `OpenRouterParser._extract_message` (openrouter.py lines 167-222),
returning the 0 or 1 messages appended: role from `role` lowered (non-str
raises `AttributeError`), content from `content`/`text` with list content
flattened and joined (join raises on a non-str part); falsy content appends
nothing; `user` → USER, `assistant`/`model`/`ai` → ASSISTANT, `system` →
SYSTEM, `tool`/`function` → TOOL (with `tool_name`); all else dropped. -/
def orExtractMessage (entry : PyVal) : Except PyErr (List Message) :=
  match entry with
  | PyVal.dict m =>
    match pyLower (pyGet m "role" (PyVal.str "")) with
    | Except.error e => Except.error e
    | Except.ok role =>
      match (match pyGet m "content" (pyGet m "text" (PyVal.str "")) with
             | PyVal.list items => (pyJoin "\n\n" (orFlatten items)).map PyVal.str
             | v => Except.ok v) with
      | Except.error e => Except.error e
      | Except.ok content =>
        if !content.truthy then Except.ok []
        else
          let timestamp := orMsgTimestamp m
          if role == "user" then
            Except.ok [{ role := MessageRole.user, content := content, timestamp := timestamp }]
          else if role == "assistant" || role == "model" || role == "ai" then
            Except.ok [{ role := MessageRole.assistant, content := content, timestamp := timestamp }]
          else if role == "system" then
            Except.ok [{ role := MessageRole.system, content := content, timestamp := timestamp }]
          else if role == "tool" || role == "function" then
            Except.ok [{ role := MessageRole.tool, content := content, timestamp := timestamp,
                         tool_name := some (pyGet m "name" (pyGet m "tool_name" PyVal.none)) }]
          else Except.ok []
  | _ => Except.ok []

/-- One decoded line of the `.jsonl` branch (openrouter.py lines 83-93). The
`try` catches only `json.JSONDecodeError`: `_extract_message` errors
propagate, and `entry.get('model')` on a non-dict decoded line raises
`AttributeError`. State: (messages, model, created_at). -/
def orJsonlStep (st : List Message × PyVal × Option PyDateTime) (entry : PyVal) :
    Except PyErr (List Message × PyVal × Option PyDateTime) :=
  match st with
  | (msgs, model, created) =>
    match orExtractMessage entry with
    | Except.error e => Except.error e
    | Except.ok more =>
      match entry with
      | PyVal.dict e =>
        let model2 :=
          if (pyGet e "model" PyVal.none).truthy && !model.truthy then pyGet e "model" PyVal.none
          else model
        let created2 :=
          if (pyGet e "timestamp" PyVal.none).truthy && created.isNone then
            orParseTimestamp (pyGet e "timestamp" PyVal.none)
          else created
        Except.ok (msgs ++ more, model2, created2)
      | _ => Except.error PyErr.attributeError

/-- One entry of the exported-array branch (openrouter.py lines 100-114).
A dict with a `messages` key feeds each element of `entry['messages']` to
`_extract_message` (iterating a non-iterable raises `TypeError`) and then
overwrites `model`/`session_id` from truthy keys; a dict without one is fed
directly, updating `model` only if still falsy. Non-dict entries are
skipped. State: (messages, model, session_id). -/
def orArrayStep (st : List Message × PyVal × String) (entry : PyVal) :
    Except PyErr (List Message × PyVal × String) :=
  match st, entry with
  | (msgs, model, sid), PyVal.dict e =>
    if (e.find? fun kv => kv.1 == "messages").isSome then
      match pyIterate (pyGet e "messages" PyVal.none) with
      | Except.error err => Except.error err
      | Except.ok items =>
        match items.foldlM (fun acc msg => (orExtractMessage msg).map fun ms => acc ++ ms) msgs with
        | Except.error err => Except.error err
        | Except.ok msgs2 =>
          let model2 := if (pyGet e "model" PyVal.none).truthy then pyGet e "model" PyVal.none
                        else model
          let sid2 := if (pyGet e "id" PyVal.none).truthy
                      then (pyStrOf (pyGet e "id" PyVal.none)).take 8 else sid
          Except.ok (msgs2, model2, sid2)
    else
      match orExtractMessage entry with
      | Except.error err => Except.error err
      | Except.ok ms =>
        let model2 := if (pyGet e "model" PyVal.none).truthy && !model.truthy
                      then pyGet e "model" PyVal.none else model
        Except.ok (msgs ++ ms, model2, sid)
  | (msgs, model, sid), _ => Except.ok (msgs, model, sid)

/-- The single-conversation dict branch (openrouter.py lines 117-138):
`session_id` from a truthy `id`, `model = data.get('model', '')`, the
message array from the `or`-chain over `messages`/`conversation`/`history`/
`chat` (first truthy, else the last lookup), each element through
`_extract_message`, then `created_at` from the first truthy of
`created_at`/`createdAt`/`timestamp`. -/
def orDictScan (d : List (String × PyVal)) :
    Except PyErr (List Message × PyVal × String × Option PyDateTime) :=
  let sid := if (pyGet d "id" PyVal.none).truthy
             then (pyStrOf (pyGet d "id" PyVal.none)).take 8 else ""
  let model := pyGet d "model" (PyVal.str "")
  let conv :=
    let m := pyGet d "messages" (PyVal.list [])
    if m.truthy then m
    else
      let c := pyGet d "conversation" (PyVal.list [])
      if c.truthy then c
      else
        let h := pyGet d "history" (PyVal.list [])
        if h.truthy then h
        else pyGet d "chat" (PyVal.list [])
  match pyIterate conv with
  | Except.error e => Except.error e
  | Except.ok items =>
    match items.foldlM (fun acc msg => (orExtractMessage msg).map fun ms => acc ++ ms) [] with
    | Except.error e => Except.error e
    | Except.ok msgs =>
      let created :=
        if (pyGet d "created_at" PyVal.none).truthy then
          orParseTimestamp (pyGet d "created_at" PyVal.none)
        else if (pyGet d "createdAt" PyVal.none).truthy then
          orParseTimestamp (pyGet d "createdAt" PyVal.none)
        else if (pyGet d "timestamp" PyVal.none).truthy then
          orParseTimestamp (pyGet d "timestamp" PyVal.none)
        else Option.none
      Except.ok (msgs, model, sid, created)

/-- `claude[_-]?3[_-]?(opus|sonnet|haiku)` and the other model-name patterns
(openrouter.py lines 248-255), in source order. -/
def orModelPatterns : List RE := [
  RE.seq (litR "claude") (RE.seq (optR (RE.cls undDash)) (RE.seq (chrR '3')
    (RE.seq (optR (RE.cls undDash)) (altsR [litR "opus", litR "sonnet", litR "haiku"])))),
  RE.seq (litR "gpt") (RE.seq (optR (RE.cls undDash)) (RE.seq (chrR '4')
    (RE.seq (optR (RE.cls undDash)) (optR (altsR [litR "turbo", litR "o"]))))),
  RE.seq (litR "gemini") (RE.seq (optR (RE.cls undDash)) (altsR [litR "pro", litR "ultra", litR "flash"])),
  RE.seq (litR "llama") (RE.seq (optR (RE.cls undDash)) (chrR '3')),
  RE.seq (litR "mistral") (RE.seq (optR (RE.cls undDash)) (optR (altsR [litR "large", litR "medium", litR "small"]))),
  litR "perplexity"]

/-- `re.search`: the leftmost match (its `group(0)` text), scanning
positions left to right. -/
def searchAux (mfuel : Nat) (re : RE) : Nat → List Char → Option (List Char)
  | 0, _ => Option.none
  | f + 1, s =>
    match mtch mfuel re s some with
    | some rest => some (s.take (s.length - rest.length))
    | Option.none =>
      match s with
      | [] => Option.none
      | _ :: cs => searchAux mfuel re f cs

/-- `re.search(re, s)` returning the matched text. -/
def reSearch (re : RE) (s : List Char) : Option (List Char) :=
  searchAux (scanFuel s) re (s.length + 1) s

/-- The pattern loop of `_extract_model_from_filename`: first pattern with a
match wins; the match text has `_` replaced by `-`. -/
def orModelSearch : List RE → String → String
  | [], _ => ""
  | p :: ps, lower =>
    match reSearch p lower.data with
    | some m => String.mk (m.map fun c => if c == '_' then '-' else c)
    | Option.none => orModelSearch ps lower

/-- `OpenRouterParser._extract_model_from_filename` (openrouter.py lines
243-262). -/
def orModelFromFilename (filename : String) : String :=
  orModelSearch orModelPatterns (asciiLower filename)

/-- Input to `OpenRouterParser.parse_session`: the outcome of
`path.read_text` (`.error ()` when it raised, lines 71-74), and on success
the two decode views of the text the two branches use: the per-line
`json.loads` outcomes (`lines`, for the `.jsonl` branch; `none` marks a
`JSONDecodeError` line, skipped) and the whole-document `json.loads` outcome
(`doc`; `none` marks the `JSONDecodeError` that makes the branch return
`None`). -/
structure ORInput where
  lines : List (Option PyVal)
  doc : Option PyVal
deriving Repr

/-- `OpenRouterParser.parse_session` (openrouter.py lines 69-165). After the
branch-specific scan: no messages → `None`; empty `session_id` falls back to
`path.stem[:8]`; a missing `created_at` reaches
`self.get_file_created_at(path)` (line 150), a method no parser class
defines, so `AttributeError` is raised; a falsy `model` falls back to
`_extract_model_from_filename(path.name)`. -/
def OpenRouterParser.parse_session (path : PyPath) (input : Except Unit ORInput) :
    Except PyErr (Option Session) :=
  match input with
  | Except.error _ => Except.ok Option.none
  | Except.ok v =>
    match (if path.suffix == ".jsonl" then
        match v.lines.foldlM (fun st line =>
            match line with
            | some entry => orJsonlStep st entry
            | Option.none => Except.ok st) ([], PyVal.str "", Option.none) with
        | Except.error e => Except.error e
        | Except.ok (msgs, model, created) =>
          Except.ok (some (msgs, model, "", created))
      else
        match v.doc with
        | Option.none => Except.ok Option.none
        | some data =>
          match data with
          | PyVal.list entries =>
            match entries.foldlM orArrayStep ([], PyVal.str "", "") with
            | Except.error e => Except.error e
            | Except.ok (msgs, model, sid) => Except.ok (some (msgs, model, sid, Option.none))
          | PyVal.dict d =>
            match orDictScan d with
            | Except.error e => Except.error e
            | Except.ok r => Except.ok (some r)
          | _ => Except.ok (some ([], PyVal.str "", "", Option.none))) with
    | Except.error e => Except.error e
    | Except.ok Option.none => Except.ok Option.none
    | Except.ok (some (msgs, model, sid, created)) =>
      if msgs.isEmpty then Except.ok Option.none
      else
        let sid2 := if sid == "" then path.stem.take 8 else sid
        match created with
        | Option.none => Except.error PyErr.attributeError
        | some dt =>
          let model2 := if !model.truthy then PyVal.str (orModelFromFilename path.name) else model
          Except.ok (some {
            id := sid2
            provider := Provider.openrouter
            messages := msgs
            created_at := dt
            model := model2
            source_file := path.full
            source_mtime := path.mtime
            tags := ["openrouter", "ai-session", "multi-model"] })

/-- A whitespace-only, non-empty text. -/
def isBlankText (s : String) : Bool := !(s == "") && s.data.all isPySpace

/-! ## Concrete inputs used by the closed theorems -/

/-- A representative session file path. -/
def path0 : PyPath :=
  { full := "/home/u/chat0001.json", stem := "chat0001", name := "chat0001.json",
    suffix := ".json", mtime := 1700000000 }

/-- A structurally valid windsurf-shaped document with one user turn. -/
def windsurfGoodDoc : PyVal :=
  PyVal.dict [("messages",
    PyVal.list [PyVal.dict [("role", PyVal.str "user"), ("content", PyVal.str "hi")]])]

/-- A cursor document with one user message and a parseable `createdAt`. -/
def cursorGoodDoc : PyVal :=
  PyVal.dict [
    ("messages", PyVal.list [PyVal.dict [("role", PyVal.str "user"), ("content", PyVal.str "hi")]]),
    ("createdAt", PyVal.str "2024-01-15T10:00:00")]

/-- The session `CursorParser.parse_session` returns for `cursorGoodDoc`. -/
def cursorSessionHi : Session :=
  { id := "chat0001", provider := Provider.cursor,
    messages := [{ role := MessageRole.user, content := PyVal.str "hi" }],
    created_at := PyDateTime.fromIso "2024-01-15T10:00:00",
    working_dir := PyVal.none, model := PyVal.str "",
    source_file := "/home/u/chat0001.json", source_mtime := 1700000000,
    tags := ["cursor", "ai-session", "coding"] }

/-- Like `cursorGoodDoc` but the message content is the whitespace-only
string `" "`. -/
def cursorBlankDoc : PyVal :=
  PyVal.dict [
    ("messages", PyVal.list [PyVal.dict [("role", PyVal.str "user"), ("content", PyVal.str " ")]]),
    ("createdAt", PyVal.str "2024-01-15T10:00:00")]

/-- The session `CursorParser.parse_session` returns for `cursorBlankDoc`:
its one message carries whitespace-only content. -/
def cursorSessionBlank : Session :=
  { id := "chat0001", provider := Provider.cursor,
    messages := [{ role := MessageRole.user, content := PyVal.str " " }],
    created_at := PyDateTime.fromIso "2024-01-15T10:00:00",
    working_dir := PyVal.none, model := PyVal.str "",
    source_file := "/home/u/chat0001.json", source_mtime := 1700000000,
    tags := ["cursor", "ai-session", "coding"] }

/-- First conversation object of a container export (its own `id` and one
user message). -/
def orConv1 : PyVal :=
  PyVal.dict [("id", PyVal.str "conva1234x"),
    ("messages", PyVal.list [PyVal.dict [("role", PyVal.str "user"), ("content", PyVal.str "one")]])]

/-- Second conversation object of the container (its own `id` and one
assistant message). -/
def orConv2 : PyVal :=
  PyVal.dict [("id", PyVal.str "convb5678y"),
    ("messages", PyVal.list [PyVal.dict [("role", PyVal.str "assistant"), ("content", PyVal.str "two")]])]

/-- A container file: a JSON array holding two historical conversations. -/
def orContainerDoc : PyVal := PyVal.list [orConv1, orConv2]

/-! # Theorems -/

theorem exceptBind_ok {α β : Type} (a : α) (f : α → Except PyErr β) :
    (Except.ok a >>= f) = f a := rfl

theorem exceptBind_err {α β : Type} (e : PyErr) (f : α → Except PyErr β) :
    ((Except.error e : Except PyErr α) >>= f) = Except.error e := rfl

/-! ## The scan: findall-count zero means sub is the identity -/

theorem subAux_zero (mfuel : Nat) (re : RE) (repl : List Char) (s : List Char) :
    subAux mfuel re repl 0 s = (s, 0) := rfl

theorem subAux_succ (mfuel : Nat) (re : RE) (repl : List Char) (f : Nat) (s : List Char) :
    subAux mfuel re repl (f + 1) s =
      subStepF repl (subAux mfuel re repl f) s (mtch mfuel re s some) := rfl

theorem subStepF_snd_congr (r1 r2 : List Char) (g1 g2 : List Char → List Char × Nat)
    (hg : ∀ u, (g1 u).2 = (g2 u).2) (s : List Char) (m : Option (List Char)) :
    (subStepF r1 g1 s m).2 = (subStepF r2 g2 s m).2 := by
  unfold subStepF
  cases m with
  | some rest =>
    by_cases h : rest.length < s.length
    · simp only [if_pos h]
      have := hg rest
      cases h1 : g1 rest with
      | mk t1 n1 =>
        cases h2 : g2 rest with
        | mk t2 n2 =>
          rw [h1, h2] at this
          simp only [h1, h2]
          simpa using this
    · simp only [if_neg h]
      cases s with
      | nil => rfl
      | cons c cs =>
        have := hg cs
        cases h1 : g1 cs with
        | mk t1 n1 =>
          cases h2 : g2 cs with
          | mk t2 n2 =>
            rw [h1, h2] at this
            simp only [h1, h2]
            simpa using this
  | none =>
    cases s with
    | nil => rfl
    | cons c cs =>
      have := hg cs
      cases h1 : g1 cs with
      | mk t1 n1 =>
        cases h2 : g2 cs with
        | mk t2 n2 =>
          rw [h1, h2] at this
          simp only [h1, h2]
          simpa using this

/-- The match count does not depend on the replacement text. -/
theorem subAux_snd_repl (mfuel : Nat) (re : RE) (r1 r2 : List Char) :
    ∀ (f : Nat) (s : List Char), (subAux mfuel re r1 f s).2 = (subAux mfuel re r2 f s).2 := by
  intro f
  induction f with
  | zero => intro s; rfl
  | succ f ih =>
    intro s
    rw [subAux_succ, subAux_succ]
    exact subStepF_snd_congr r1 r2 _ _ ih s _

/-- A scan that found no match leaves the text unchanged. -/
theorem subAux_snd_zero_fst (mfuel : Nat) (re : RE) (repl : List Char) :
    ∀ (f : Nat) (s : List Char),
      (subAux mfuel re repl f s).2 = 0 → (subAux mfuel re repl f s).1 = s := by
  intro f
  induction f with
  | zero => intro s _; rfl
  | succ f ih =>
    intro s h
    rw [subAux_succ] at h ⊢
    cases hm : mtch mfuel re s some with
    | some rest =>
      rw [hm] at h
      by_cases hl : rest.length < s.length
      · simp [subStepF, if_pos hl] at h
      · simp only [subStepF, if_neg hl] at h
        cases s with
        | nil => simp at h
        | cons c cs => simp at h
    | none =>
      rw [hm] at h
      cases s with
      | nil => rfl
      | cons c cs =>
        simp only [subStepF] at h ⊢
        have := ih cs
        cases h1 : subAux mfuel re repl f cs with
        | mk t n =>
          rw [h1] at h this
          simp only at h this
          simp [this h]

/-- `len(pattern.findall(s)) == 0` implies `pattern.sub(repl, s) == s`. -/
theorem pyCount_zero_pySub (re : RE) (repl s : List Char)
    (h : pyCount re s = 0) : pySub re repl s = s := by
  unfold pyCount at h
  unfold pySub
  have hr := subAux_snd_repl (scanFuel s) re repl [] (s.length + 1) s
  rw [h] at hr
  exact subAux_snd_zero_fst (scanFuel s) re repl (s.length + 1) s hr

/-- The redacted text accumulated by `redact`'s loop equals the plain
substitution fold of `redact_simple`. -/
theorem redact_fold_fst :
    ∀ (compiled : List (RE × String × String)) (text : List Char)
      (counts : List (String × Nat)) (total : Nat),
      (compiled.foldl redactStep (text, counts, total)).1 =
        compiled.foldl (fun t p => pySub p.1 p.2.1.data t) text := by
  intro compiled
  induction compiled with
  | nil => intro text counts total; rfl
  | cons p ps ih =>
    intro text counts total
    simp only [List.foldl_cons]
    by_cases h : pyCount p.1 text = 0
    · have hstep : redactStep (text, counts, total) p = (text, counts, total) := by
        unfold redactStep
        simp [h]
      rw [hstep, ih, pyCount_zero_pySub p.1 p.2.1.data text h]
    · have hstep : redactStep (text, counts, total) p =
          (pySub p.1 p.2.1.data text,
           dictSetNat counts p.2.2 (dictGetNat counts p.2.2 + pyCount p.1 text),
           total + pyCount p.1 text) := by
        unfold redactStep
        simp [h]
      rw [hstep, ih]

/-! ## Compilation of the pattern list -/

/-- A list of compilable sources compiles to exactly its patterns, in order. -/
theorem mapM_compile_inj (l : List (RE × String × String)) :
    (l.map fun t => ((some t.1 : Option RE), t.2.1, t.2.2)).mapM
      (fun t => (reCompileModel t.1).map fun r => (r, t.2.1, t.2.2)) = Except.ok l := by
  induction l with
  | nil => rfl
  | cons p ps ih =>
    rw [List.map_cons, List.mapM_cons, ih]
    rfl

/-- A non-compiling source at the head fails the whole comprehension. -/
theorem mapM_compile_bad (rest : List (Option RE × String × String)) (r c : String) :
    (((Option.none, r, c) : Option RE × String × String) :: rest).mapM
      (fun t => (reCompileModel t.1).map fun r2 => (r2, t.2.1, t.2.2)) =
    Except.error PyErr.reError := by
  rw [List.mapM_cons]
  rfl

/-! ## Parser inversion lemmas -/

/-- One cursor message step only ever appends truthy-content messages. -/
theorem cursorMsgStep_truthy (acc : List Message) (msg : PyVal) (out : List Message)
    (h : cursorMsgStep acc msg = Except.ok out)
    (hacc : ∀ m ∈ acc, m.content.truthy = true) :
    ∀ m ∈ out, m.content.truthy = true := by
  unfold cursorMsgStep at h
  cases msg <;> try (cases h; exact hacc)
  case dict md =>
  simp only at h
  cases hro : pyLower (pyGet md "role" (PyVal.str "")) with
  | error e => rw [hro] at h; cases h
  | ok role =>
    rw [hro] at h
    simp only at h
    split at h
    case isTrue hguard =>
      simp only [Except.ok.injEq] at h
      subst h
      intro m hm
      rcases List.mem_append.mp hm with hm2 | hm2
      · exact hacc m hm2
      · simp only [List.mem_singleton] at hm2
        subst hm2
        exact (Bool.and_eq_true _ _ |>.mp hguard).2
    case isFalse =>
      split at h
      case isTrue hguard =>
        simp only [Except.ok.injEq] at h
        subst h
        intro m hm
        rcases List.mem_append.mp hm with hm2 | hm2
        · exact hacc m hm2
        · simp only [List.mem_singleton] at hm2
          subst hm2
          exact (Bool.and_eq_true _ _ |>.mp hguard).2
      case isFalse =>
        cases h
        exact hacc

/-- The cursor message loop preserves content truthiness. -/
theorem cursorFold_truthy :
    ∀ (items : List PyVal) (acc out : List Message),
      items.foldlM cursorMsgStep acc = Except.ok out →
      (∀ m ∈ acc, m.content.truthy = true) → ∀ m ∈ out, m.content.truthy = true := by
  intro items
  induction items with
  | nil =>
    intro acc out h hacc
    simp only [List.foldlM_nil] at h
    cases h
    exact hacc
  | cons x xs ih =>
    intro acc out h hacc
    rw [List.foldlM_cons] at h
    cases hs : cursorMsgStep acc x with
    | error e => rw [hs, exceptBind_err] at h; cases h
    | ok acc2 =>
      rw [hs, exceptBind_ok] at h
      exact ih acc2 out h (cursorMsgStep_truthy acc x acc2 hs hacc)

/-- A cursor parse that returns a Session returns one with a non-empty
message list whose every content is Python-truthy. -/
theorem cursor_parse_inv (path : PyPath) (input : Except Unit PyVal) (s : Session)
    (h : CursorParser.parse_session path input = Except.ok (some s)) :
    s.messages ≠ [] ∧ ∀ m ∈ s.messages, m.content.truthy = true := by
  unfold CursorParser.parse_session at h
  cases input with
  | error e => simp at h
  | ok data =>
    cases data with
    | none => simp at h
    | bool b => simp at h
    | int n => simp at h
    | str s2 => simp at h
    | list l => simp at h
    | dict d =>
      simp only at h
      by_cases hraw : (pyGet d "messages" (pyGet d "conversation" (PyVal.list []))).truthy
      case neg => simp [hraw] at h
      case pos =>
        simp only [hraw, Bool.not_true, Bool.false_eq_true, if_false] at h
        cases hiter : pyIterate (pyGet d "messages" (pyGet d "conversation" (PyVal.list []))) with
        | error e => rw [hiter] at h; simp at h
        | ok items =>
          rw [hiter] at h
          simp only at h
          cases hmsgs : cursorMessages items with
          | error e => rw [hmsgs] at h; simp at h
          | ok messages =>
            rw [hmsgs] at h
            simp only at h
            by_cases hne : messages.isEmpty
            · simp [hne] at h
            · simp only [hne, Bool.false_eq_true, if_false] at h
              cases hca : cursorCreatedAt d with
              | error e => rw [hca] at h; simp at h
              | ok created =>
                rw [hca] at h
                simp only [Except.ok.injEq, Option.some.injEq] at h
                subst h
                refine ⟨by simpa using hne, ?_⟩
                exact fun m hm => cursorFold_truthy items [] messages hmsgs (by simp) m hm

/-- Windsurf never returns a Session with an empty message list (in the
current code it never returns a Session at all: the success path raises). -/
theorem windsurf_some_nonempty (path : PyPath) (input : Except Unit PyVal) (s : Session)
    (h : WindsurfParser.parse_session path input = Except.ok (some s)) : s.messages ≠ [] := by
  unfold WindsurfParser.parse_session at h
  repeat' split at h
  all_goals simp_all

/-- A windsurf extraction with zero messages makes the parse return None. -/
theorem windsurf_zero_none (path : PyPath) (data : PyVal)
    (hg : windsurfGather data = Except.ok []) :
    WindsurfParser.parse_session path (Except.ok data) = Except.ok Option.none := by
  unfold WindsurfParser.parse_session
  simp [hg]

/-- An openrouter parse that returns a Session returns one with a non-empty
message list. -/
theorem openrouter_some_nonempty (path : PyPath) (input : Except Unit ORInput) (s : Session)
    (h : OpenRouterParser.parse_session path input = Except.ok (some s)) : s.messages ≠ [] := by
  unfold OpenRouterParser.parse_session at h
  repeat' split at h
  all_goals try simp at h
  all_goals subst h
  all_goals simp_all

theorem claudeMetaSession_messages (st : ClaudeState) (e : List (String × PyVal)) :
    (claudeMetaSession st e).messages = st.messages := by
  unfold claudeMetaSession; split <;> rfl

theorem claudeMetaTimestamp_messages (st : ClaudeState) (e : List (String × PyVal)) :
    (claudeMetaTimestamp st e).messages = st.messages := by
  unfold claudeMetaTimestamp; repeat' split
  all_goals rfl

theorem claudeMetaCwd_messages (st : ClaudeState) (e : List (String × PyVal)) :
    (claudeMetaCwd st e).messages = st.messages := by
  unfold claudeMetaCwd; split <;> rfl

theorem claudeMetaModel_messages (st : ClaudeState) (e : List (String × PyVal)) :
    (claudeMetaModel st e).messages = st.messages := by
  unfold claudeMetaModel; split <;> rfl

/-- The metadata updates never touch the message list. -/
theorem claudeMetaUpdate_messages (st : ClaudeState) (e : List (String × PyVal)) :
    (claudeMetaUpdate st e).messages = st.messages := by
  unfold claudeMetaUpdate
  rw [claudeMetaModel_messages, claudeMetaCwd_messages, claudeMetaTimestamp_messages,
    claudeMetaSession_messages]

/-- One claude line step only ever appends truthy-content messages (it
appends only non-empty text as a str). -/
theorem claudeLineStep_truthy (st : ClaudeState) (entry : PyVal) (st2 : ClaudeState)
    (h : claudeLineStep st entry = Except.ok st2)
    (hst : ∀ m ∈ st.messages, m.content.truthy = true) :
    ∀ m ∈ st2.messages, m.content.truthy = true := by
  unfold claudeLineStep at h
  repeat' split at h
  all_goals try simp at h
  all_goals repeat' split at h
  all_goals try simp at h
  all_goals subst h
  all_goals intro m hm
  all_goals try (rw [claudeMetaUpdate_messages] at hm; exact hst m hm)
  all_goals simp only at hm
  all_goals rw [claudeMetaUpdate_messages] at hm
  all_goals rcases List.mem_append.mp hm with hm2 | hm2
  all_goals try exact hst m hm2
  all_goals simp only [List.mem_singleton] at hm2
  all_goals subst hm2
  all_goals simp_all [PyVal.truthy]

/-- The claude line loop preserves content truthiness. -/
theorem claudeFold_truthy :
    ∀ (lines : List (Option PyVal)) (st out : ClaudeState),
      (lines.foldlM (fun st line =>
        match line with
        | some entry => claudeLineStep st entry
        | Option.none => Except.ok st) st) = Except.ok out →
      (∀ m ∈ st.messages, m.content.truthy = true) →
      ∀ m ∈ out.messages, m.content.truthy = true := by
  intro lines
  induction lines with
  | nil =>
    intro st out h hst
    simp only [List.foldlM_nil] at h
    cases h
    exact hst
  | cons x xs ih =>
    intro st out h hst
    rw [List.foldlM_cons] at h
    cases x with
    | none =>
      simp only at h
      rw [exceptBind_ok] at h
      exact ih st out h hst
    | some entry =>
      simp only at h
      cases hs : claudeLineStep st entry with
      | error e => rw [hs, exceptBind_err] at h; cases h
      | ok st2 =>
        rw [hs, exceptBind_ok] at h
        exact ih st2 out h (claudeLineStep_truthy st entry st2 hs hst)

/-- A claude parse that returns a Session returns one with a non-empty
message list whose every content is Python-truthy. -/
theorem claude_parse_inv (path : PyPath) (input : Except Unit (List (Option PyVal)))
    (s : Session) (h : ClaudeCodeParser.parse_session path input = Except.ok (some s)) :
    s.messages ≠ [] ∧ ∀ m ∈ s.messages, m.content.truthy = true := by
  unfold ClaudeCodeParser.parse_session at h
  cases input with
  | error e => simp at h
  | ok lines =>
    simp only at h
    by_cases hl : lines.isEmpty
    · simp [hl] at h
    · simp only [hl, Bool.false_eq_true, if_false] at h
      cases hf : claudeFold path lines with
      | error e => rw [hf] at h; simp at h
      | ok st =>
        rw [hf] at h
        simp only at h
        by_cases hm : st.messages.isEmpty
        · simp [hm] at h
        · simp only [hm, Bool.false_eq_true, if_false, Except.ok.injEq, Option.some.injEq] at h
          subst h
          refine ⟨by simpa using hm, ?_⟩
          exact fun m hmm =>
            claudeFold_truthy lines (claudeInitState path) st hf (by simp [claudeInitState]) m hmm

/-- A claude fold ending with zero messages makes the parse return None. -/
theorem claude_zero_none (path : PyPath) (lines : List (Option PyVal)) (st : ClaudeState)
    (hf : claudeFold path lines = Except.ok st) (hm : st.messages = []) :
    ClaudeCodeParser.parse_session path (Except.ok lines) = Except.ok Option.none := by
  unfold ClaudeCodeParser.parse_session
  by_cases hl : lines.isEmpty
  · simp [hl]
  · simp [hl, hf, hm]

/-! ## The claims -/

/-- C1: the claim says `parse_session` never lets an exception escape: for
every location and input it returns a Session or None. The code violates
this: on a structurally valid windsurf document with one user turn, the
`Session(...)` call evaluates `self.get_file_created_at(path)`, a method no
parser class defines, and the `AttributeError` escapes `parse_session`.
This theorem evaluates the embedded code at that failing input. -/
theorem claim1_windsurf_parse_raises :
    WindsurfParser.parse_session path0 (Except.ok windsurfGoodDoc) =
      Except.error PyErr.attributeError := rfl

/-- C2 counterexample: the claim says a pattern that fails to compile is
skipped and the remaining patterns still run. In the code the compile
comprehension of `SecretRedactor.__init__` has no exception handling, so one
non-compiling custom pattern makes construction fail outright. -/
theorem claim2_failing_pattern_raises_counterexample :
    SecretRedactor.init [(Option.none, "[REDACTED: Custom]", "custom")] =
      Except.error PyErr.reError := rfl

/-- C2 amended: when every pattern compiles, construction succeeds and keeps
every pattern, in order (the default patterns followed by the custom ones);
but a non-compiling pattern anywhere in the custom list makes the
constructor raise — it is not skipped. (In this embedding compiled patterns
are total, so matching itself cannot throw.) -/
theorem claim2_compile_isolation_amended :
    (∀ custom : List (RE × String × String),
        SecretRedactor.init (custom.map fun t => (some t.1, t.2.1, t.2.2)) =
          Except.ok (SECRET_PATTERNS ++ custom)) ∧
    (∀ (pre : List (RE × String × String)) (rest : List (Option RE × String × String))
        (r c : String),
        SecretRedactor.init
            ((pre.map fun t => (some t.1, t.2.1, t.2.2)) ++ (Option.none, r, c) :: rest) =
          Except.error PyErr.reError) := by
  constructor
  · intro custom
    unfold SecretRedactor.init secretPatternsSrc
    rw [List.mapM_append, mapM_compile_inj, mapM_compile_inj]
    rfl
  · intro pre rest r c
    unfold SecretRedactor.init secretPatternsSrc
    rw [List.mapM_append, mapM_compile_inj, List.mapM_append, mapM_compile_inj, mapM_compile_bad]
    rfl

/-- C3 counterexample: the claim says the generic credential-assignment
fallback is the last pattern applied. It is not: the last pattern of
`SECRET_PATTERNS` is a webhook pattern. -/
theorem claim3_generic_not_last_counterexample :
    ¬ (secretCategories.getLast? = some "credential") := by decide

/-- C3 amended: the generic credential fallback sits at index 28 of the
32-pattern list — after every vendor key/token, cloud, database and
private-key pattern (it is the only `credential` entry and nothing before it
is one), but before the SSH-public-key pattern and the two webhook patterns,
which are the three patterns applied after it. -/
theorem claim3_generic_fallback_position :
    secretCategories.length = 32 ∧
    secretCategories.indexOf "credential" = 28 ∧
    secretCategories.count "credential" = 1 ∧
    secretCategories.drop 29 = ["ssh", "webhook", "webhook"] := by
  refine ⟨?_, ?_, ?_, ?_⟩ <;> decide

/-- C4: redacting the exact input
`"API key: sk-ABCDEFGHIJKLMNOPQRSTUVWXYZ0123456789"` with the default
pattern list returns exactly `"API key: [REDACTED: OpenAI API Key]"`:
the OpenAI pattern replaces the key and no later pattern (including the
generic credential fallback) alters the replacement. -/
theorem claim4_redaction_scenario :
    (redactStr "API key: sk-ABCDEFGHIJKLMNOPQRSTUVWXYZ0123456789").1 =
      "API key: [REDACTED: OpenAI API Key]" := by decide

/-- C5 counterexample: the claim says that on every text holding a vendor
token together with a nearby generic `token=...` assignment, the vendor
token is counted once, under the vendor category, and not additionally
under `credential`. When the assignment's value is the vendor token itself,
it is: the OpenAI pattern fires first (api_key, 1) and its substituted
placeholder `token=[REDACTED:` is then matched by the generic fallback, so
the single vendor token also increments `credential` — the report shows
both categories and the output text shows the fallback consumed the
placeholder. -/
theorem claim5_vendor_double_count_counterexample :
    (redactStr "token=sk-ABCDEFGHIJKLMNOPQRSTUVWXYZ0123456789").2.redaction_types =
        [("api_key", 1), ("credential", 1)] ∧
    (redactStr "token=sk-ABCDEFGHIJKLMNOPQRSTUVWXYZ0123456789").1 =
        "[REDACTED: Credential] OpenAI API Key]" := by
  refine ⟨?_, ?_⟩ <;> decide

/-- C5 amended: when the vendor token and the generic assignment are
disjoint, the vendor token is counted exactly once, under `api_key`, and
the `credential` count comes only from the separate assignment — the same
vendor token alone produces no `credential` entry at all; but when the
assignment's value is the vendor token itself, the vendor substitution's
placeholder is additionally matched and counted by the generic fallback. -/
theorem claim5_vendor_precedence_amended :
    (redactStr "sk-ABCDEFGHIJKLMNOPQRSTUVWXYZ0123456789 and token=supersecretvalue").2.redaction_types
        = [("api_key", 1), ("credential", 1)] ∧
    (redactStr "sk-ABCDEFGHIJKLMNOPQRSTUVWXYZ0123456789 and token=supersecretvalue").1
        = "[REDACTED: OpenAI API Key] and [REDACTED: Credential]" ∧
    (redactStr "sk-ABCDEFGHIJKLMNOPQRSTUVWXYZ0123456789").2.redaction_types
        = [("api_key", 1)] ∧
    (redactStr "token=sk-ABCDEFGHIJKLMNOPQRSTUVWXYZ0123456789").2.redaction_types
        = [("api_key", 1), ("credential", 1)] := by
  refine ⟨?_, ?_, ?_, ?_⟩ <;> decide

/-- C6: no parser ever returns a Session with an empty message list (each of
the four embedded parsers), and a parse whose extraction yields zero
messages returns None (shown for the two parsers the claim cites, claude and
windsurf, via their extraction functions). -/
theorem claim6_sessions_nonempty :
    (∀ (path : PyPath) (input : Except Unit PyVal) (s : Session),
        CursorParser.parse_session path input = Except.ok (some s) → s.messages ≠ []) ∧
    (∀ (path : PyPath) (input : Except Unit PyVal) (s : Session),
        WindsurfParser.parse_session path input = Except.ok (some s) → s.messages ≠ []) ∧
    (∀ (path : PyPath) (input : Except Unit (List (Option PyVal))) (s : Session),
        ClaudeCodeParser.parse_session path input = Except.ok (some s) → s.messages ≠ []) ∧
    (∀ (path : PyPath) (input : Except Unit ORInput) (s : Session),
        OpenRouterParser.parse_session path input = Except.ok (some s) → s.messages ≠ []) ∧
    (∀ (path : PyPath) (data : PyVal), windsurfGather data = Except.ok [] →
        WindsurfParser.parse_session path (Except.ok data) = Except.ok Option.none) ∧
    (∀ (path : PyPath) (lines : List (Option PyVal)) (st : ClaudeState),
        claudeFold path lines = Except.ok st → st.messages = [] →
        ClaudeCodeParser.parse_session path (Except.ok lines) = Except.ok Option.none) :=
  ⟨fun p i s h => (cursor_parse_inv p i s h).1,
   windsurf_some_nonempty,
   fun p i s h => (claude_parse_inv p i s h).1,
   openrouter_some_nonempty,
   windsurf_zero_none,
   claude_zero_none⟩

/-- C6 witness: the cursor parser at a concrete one-message document returns
a Session, and the theorem yields its non-empty message list. -/
theorem claim6_sessions_nonempty_witness :
    CursorParser.parse_session path0 (Except.ok cursorGoodDoc) = Except.ok (some cursorSessionHi) ∧
    cursorSessionHi.messages ≠ [] :=
  ⟨rfl, claim6_sessions_nonempty.1 path0 (Except.ok cursorGoodDoc) cursorSessionHi rfl⟩

/-- C7 counterexample: the claim says a whitespace-only message is dropped,
never represented. The cursor parser keeps it: on a document whose one
message content is the whitespace-only string `" "`, it returns a Session
containing a Message with that whitespace-only content. -/
theorem claim7_whitespace_message_counterexample :
    CursorParser.parse_session path0 (Except.ok cursorBlankDoc) =
        Except.ok (some cursorSessionBlank) ∧
    cursorSessionBlank.messages = [{ role := MessageRole.user, content := PyVal.str " " }] ∧
    isBlankText " " = true :=
  ⟨rfl, rfl, rfl⟩

/-- C7 amended: every Message in a returned Session has content that is
Python-truthy — non-empty — (shown for the cited parsers, claude and
cursor); but whitespace-only content is not dropped: it is truthy and is
retained. -/
theorem claim7_content_truthy_amended :
    (∀ (path : PyPath) (input : Except Unit PyVal) (s : Session),
        CursorParser.parse_session path input = Except.ok (some s) →
        ∀ m ∈ s.messages, m.content.truthy = true) ∧
    (∀ (path : PyPath) (input : Except Unit (List (Option PyVal))) (s : Session),
        ClaudeCodeParser.parse_session path input = Except.ok (some s) →
        ∀ m ∈ s.messages, m.content.truthy = true) :=
  ⟨fun p i s h => (cursor_parse_inv p i s h).2,
   fun p i s h => (claude_parse_inv p i s h).2⟩

/-- C8 counterexample: the claim says every adapter maps the synonym `human`
to USER. The openrouter adapter (cited by the claim) drops a `human`-role
message entirely instead. -/
theorem claim8_human_dropped_counterexample :
    orExtractMessage (PyVal.dict [("role", PyVal.str "human"), ("content", PyVal.str "hi")]) =
      Except.ok [] := rfl

/-- C8 amended: role mapping is case-insensitive (each adapter lowers the
role first — shown on mixed-case inputs) and each recognized synonym maps
deterministically to one canonical role, but the synonym sets differ per
adapter: cursor maps only `user`→USER and `assistant`/`ai`→ASSISTANT
(dropping `human`, `model`, `system`, `tool`); windsurf adds `human`→USER
and `model`→ASSISTANT (dropping `system`, `tool`); openrouter maps
`user`→USER, `assistant`/`model`/`ai`→ASSISTANT, `system`→SYSTEM and
`tool`/`function`→TOOL but drops `human`. -/
theorem claim8_role_mapping_amended :
    (cursorMsgStep [] (PyVal.dict [("role", PyVal.str "USER"), ("content", PyVal.str "x")]) =
      Except.ok [{ role := MessageRole.user, content := PyVal.str "x" }]) ∧
    (cursorMsgStep [] (PyVal.dict [("role", PyVal.str "Assistant"), ("content", PyVal.str "x")]) =
      Except.ok [{ role := MessageRole.assistant, content := PyVal.str "x" }]) ∧
    (cursorMsgStep [] (PyVal.dict [("role", PyVal.str "ai"), ("content", PyVal.str "x")]) =
      Except.ok [{ role := MessageRole.assistant, content := PyVal.str "x" }]) ∧
    (cursorMsgStep [] (PyVal.dict [("role", PyVal.str "human"), ("content", PyVal.str "x")]) =
      Except.ok []) ∧
    (cursorMsgStep [] (PyVal.dict [("role", PyVal.str "model"), ("content", PyVal.str "x")]) =
      Except.ok []) ∧
    (cursorMsgStep [] (PyVal.dict [("role", PyVal.str "system"), ("content", PyVal.str "x")]) =
      Except.ok []) ∧
    (cursorMsgStep [] (PyVal.dict [("role", PyVal.str "tool"), ("content", PyVal.str "x")]) =
      Except.ok []) ∧
    (windsurfMsgStep [] (PyVal.dict [("role", PyVal.str "HUMAN"), ("content", PyVal.str "x")]) =
      Except.ok [{ role := MessageRole.user, content := PyVal.str "x" }]) ∧
    (windsurfMsgStep [] (PyVal.dict [("role", PyVal.str "Model"), ("content", PyVal.str "x")]) =
      Except.ok [{ role := MessageRole.assistant, content := PyVal.str "x" }]) ∧
    (windsurfMsgStep [] (PyVal.dict [("role", PyVal.str "system"), ("content", PyVal.str "x")]) =
      Except.ok []) ∧
    (windsurfMsgStep [] (PyVal.dict [("role", PyVal.str "function"), ("content", PyVal.str "x")]) =
      Except.ok []) ∧
    (orExtractMessage (PyVal.dict [("role", PyVal.str "User"), ("content", PyVal.str "x")]) =
      Except.ok [{ role := MessageRole.user, content := PyVal.str "x" }]) ∧
    (orExtractMessage (PyVal.dict [("role", PyVal.str "ASSISTANT"), ("content", PyVal.str "x")]) =
      Except.ok [{ role := MessageRole.assistant, content := PyVal.str "x" }]) ∧
    (orExtractMessage (PyVal.dict [("role", PyVal.str "Model"), ("content", PyVal.str "x")]) =
      Except.ok [{ role := MessageRole.assistant, content := PyVal.str "x" }]) ∧
    (orExtractMessage (PyVal.dict [("role", PyVal.str "ai"), ("content", PyVal.str "x")]) =
      Except.ok [{ role := MessageRole.assistant, content := PyVal.str "x" }]) ∧
    (orExtractMessage (PyVal.dict [("role", PyVal.str "SYSTEM"), ("content", PyVal.str "x")]) =
      Except.ok [{ role := MessageRole.system, content := PyVal.str "x" }]) ∧
    (orExtractMessage (PyVal.dict [("role", PyVal.str "Tool"), ("content", PyVal.str "x")]) =
      Except.ok [{ role := MessageRole.tool, content := PyVal.str "x",
                   tool_name := some PyVal.none }]) ∧
    (orExtractMessage (PyVal.dict [("role", PyVal.str "function"), ("content", PyVal.str "x")]) =
      Except.ok [{ role := MessageRole.tool, content := PyVal.str "x",
                   tool_name := some PyVal.none }]) ∧
    (orExtractMessage (PyVal.dict [("role", PyVal.str "human"), ("content", PyVal.str "x")]) =
      Except.ok []) :=
  ⟨rfl, rfl, rfl, rfl, rfl, rfl, rfl, rfl, rfl, rfl, rfl, rfl, rfl, rfl, rfl, rfl, rfl, rfl, rfl⟩

/-- C9 counterexample: the claim says a container file with several sessions
yields zero or more Sessions whose ids derive from container path plus
index. On a concrete two-conversation container the parse yields no Session
sequence at all: the array branch never sets `created_at`, so the call
raises `AttributeError` at the missing `get_file_created_at`. -/
theorem claim9_container_counterexample :
    OpenRouterParser.parse_session path0
        (Except.ok { lines := [], doc := some orContainerDoc }) =
      Except.error PyErr.attributeError := rfl

/-- C9 amended: `parse_session` returns at most one Session per file
(`Optional[Session]`): the array branch merges every conversation's messages
into one list and keeps the last truthy `id` truncated to 8 characters —
identity is never derived from container path plus index — and in the
current code the merged result is then lost to the `AttributeError` of the
missing `created_at` helper. -/
theorem claim9_container_amended :
    [orConv1, orConv2].foldlM orArrayStep ([], PyVal.str "", "") =
      Except.ok ([{ role := MessageRole.user, content := PyVal.str "one" },
                  { role := MessageRole.assistant, content := PyVal.str "two" }],
                 PyVal.str "", "convb567") ∧
    OpenRouterParser.parse_session path0
        (Except.ok { lines := [], doc := some orContainerDoc }) =
      Except.error PyErr.attributeError :=
  ⟨rfl, rfl⟩

/-- C10: for every compiled pattern list and every text, the redacted text
`redact` returns as its first component is exactly the text `redact_simple`
returns: both apply the same substitutions in the same order (a pattern with
no match leaves the text unchanged), and they differ only in the report. -/
theorem claim10_redact_fst_eq_redact_simple (compiled : List (RE × String × String))
    (text : List Char) :
    (SecretRedactor.redact compiled text).1 = SecretRedactor.redact_simple compiled text := by
  unfold SecretRedactor.redact SecretRedactor.redact_simple
  by_cases h : text.isEmpty
  · simp [h]
  · simp only [h, Bool.false_eq_true, if_false]
    cases hf : List.foldl redactStep (text, [], 0) compiled with
    | mk t rest =>
      cases rest with
      | mk counts total =>
        simp only
        have := redact_fold_fst compiled text [] 0
        rw [hf] at this
        simpa using this
